import Mathlib

/-!
Verification of `nova::non_null` (nova_nonnull).

Shallow embedding of `src/include/nova/non_null.hpp`: the `non_null` wrapper
over raw pointers, `std::shared_ptr` and `std::unique_ptr`, the
`non_null_function` / `non_null_move_only_function` callable wrappers, and the
free operations `take`, `swap`, `try_make_non_null`, `make_non_null_unique`.

Modelling conventions:
* A pointer value is an address `Addr := Nat`; the null sentinel is `0`.
* `std::shared_ptr` is a pair of stored pointer and control-block identity
  (`owner`); the empty shared_ptr is `⟨0, 0⟩`.  Its move constructor /
  move assignment transfer the value and leave the source empty, as the
  C++ standard guarantees.
* `std::unique_ptr` is a stored pointer; moving it empties the source.
* `std::function` is `Option (α → β)`; `none` is the empty state.
* Checked-build assertion failure (`assert` in `detail::assume_nonnull` /
  `assume_not_empty`, fired during construction) is modelled by the
  constructor returning `none`; a successful construction returns `some`.
* Heap allocation (`std::make_unique`) is modelled by an explicit heap:
  a list of cells, addresses starting at 1, so a fresh allocation is
  never the null sentinel.
-/

namespace Nova

/-- A pointer value: an address.  `0` encodes `nullptr`. -/
abbrev Addr := Nat

/-! ## Pointer representations (the wrapped types) -/

/-- Model of `std::shared_ptr`: the stored pointer and the identity of the
control block that owns it (`0` = no control block, i.e. the empty state
of a default-constructed or moved-from shared_ptr). -/
structure SharedPtr where
  ptr : Addr
  owner : Nat
  deriving DecidableEq

/-- The empty `std::shared_ptr` (what a moved-from shared_ptr holds). -/
def SharedPtr.null : SharedPtr := ⟨0, 0⟩

/-- `p == nullptr` for a shared_ptr compares the stored pointer. -/
def SharedPtr.isNull (s : SharedPtr) : Bool := s.ptr == 0

/-- Move semantics of `std::shared_ptr` (`T(std::move(src))` /
`dst = std::move(src)`): the destination receives the source's value and
the source is left empty.  Returns `(value received, residual source)`. -/
def SharedPtr.moveFrom (s : SharedPtr) : SharedPtr × SharedPtr :=
  (s, SharedPtr.null)

/-- `std::shared_ptr::owner_before`: strict weak ordering over control-block
identity, independent of the stored pointer value. -/
def SharedPtr.ownerBefore (a b : SharedPtr) : Bool := a.owner < b.owner

/-- Model of `std::unique_ptr`: the stored pointer. -/
structure UniquePtr where
  ptr : Addr
  deriving DecidableEq

/-- `p == nullptr` for a unique_ptr. -/
def UniquePtr.isNull (u : UniquePtr) : Bool := u.ptr == 0

/-- Move semantics of a raw pointer: moving copies the address, the source
retains its value.  Returns `(value received, residual source)`. -/
def RawPtr.moveFrom (p : Addr) : Addr × Addr := (p, p)

/-! ## Heap (for `std::make_unique`) -/

/-- A heap of integer cells.  Cell `i` of the list lives at address `i + 1`,
so allocated addresses are never the null sentinel `0`. -/
structure Heap where
  cells : List Nat
  deriving DecidableEq

/-- Allocate a fresh cell holding `v`; returns the new heap and the address. -/
def Heap.alloc (h : Heap) (v : Nat) : Heap × Addr :=
  (⟨h.cells ++ [v]⟩, h.cells.length + 1)

/-- Read the cell at address `a` (`none` for null or unmapped addresses). -/
def Heap.read (h : Heap) (a : Addr) : Option Nat :=
  if a = 0 then none else h.cells[a - 1]?

/-! ## `non_null<T*>` (Raw category) -/

/-- `nova::non_null<T*>`: wraps a raw pointer (`ptr_` member). -/
structure non_null_raw where
  ptr_ : Addr
  deriving DecidableEq

namespace non_null_raw

/-- The checked constructor `non_null(U&& p)`: initialises `ptr_` from `p`,
then `assert(ptr_ != nullptr)` / `detail::assume_nonnull(ptr_)`.  In a
checked build the assertion fires exactly when `p` is null; modelled as
`none` on assertion failure, `some` wrapper otherwise. -/
def mk? (p : Addr) : Option non_null_raw :=
  if p == 0 then none else some ⟨p⟩

/-- `get()`: returns the underlying raw pointer. -/
def get (w : non_null_raw) : Addr := w.ptr_

/-- Move constructor (enabled: a raw pointer satisfies `copyable_pointer`):
`ptr_( std::move( other.ptr_ ) )`.  Returns `(constructed, residual source)`. -/
def moveCtor (other : non_null_raw) : non_null_raw × non_null_raw :=
  let m := RawPtr.moveFrom other.ptr_
  (⟨m.1⟩, ⟨m.2⟩)

/-- Move assignment: `ptr_ = std::move( other.ptr_ )`.
Returns `(assigned-to value, residual source)`. -/
def moveAssign (_dst src : non_null_raw) : non_null_raw × non_null_raw :=
  let m := RawPtr.moveFrom src.ptr_
  (⟨m.1⟩, ⟨m.2⟩)

/-- Member `swap`: `swap( ptr_, other.ptr_ )`.  Returns the two wrappers
after the exchange. -/
def swap (a b : non_null_raw) : non_null_raw × non_null_raw :=
  (⟨b.ptr_⟩, ⟨a.ptr_⟩)

/-- `friend T take( non_null&& nn )`: returns `std::move( nn.ptr_ )`,
consuming the wrapper. -/
def take (nn : non_null_raw) : Addr := nn.ptr_

/-- `explicit operator bool()`: `return true;`. -/
def toBool (_ : non_null_raw) : Bool := true

/-- `operator==( const non_null&, const U& )` instantiated at
`U = std::nullptr_t`: the `if constexpr` selects `return false;` — the
stored pointer is not read. -/
def eqNullptr (_ : non_null_raw) : Bool := false

/-- `operator==( const non_null&, const U& )` instantiated at a compatible
pointer type: `return lhs.get() == rhs;`. -/
def eqPtr (lhs : non_null_raw) (rhs : Addr) : Bool := lhs.get == rhs

/-- `operator==( const non_null&, const non_null<U>& )`:
`return lhs.get() == rhs.get();`. -/
def eq (lhs rhs : non_null_raw) : Bool := lhs.get == rhs.get

/-- `operator<=>( const non_null&, const non_null<U>& )`:
`return lhs.get() <=> rhs.get();`. -/
def spaceship (lhs rhs : non_null_raw) : Ordering := compare lhs.get rhs.get

end non_null_raw

/-- Free `swap( non_null&, non_null& )`: calls `lhs.swap( rhs )`. -/
def swap_free (lhs rhs : non_null_raw) : non_null_raw × non_null_raw :=
  non_null_raw.swap lhs rhs

/-- `try_make_non_null( T&& p )` at `T = raw pointer`:
`if ( p == nullptr ) return std::nullopt;` then constructs the optional
in place via the checked `non_null` constructor. -/
def try_make_non_null (p : Addr) : Option non_null_raw :=
  if p == 0 then none
  else non_null_raw.mk? p

/-! ## `non_null<std::shared_ptr<T>>` (Shared category) -/

/-- `nova::non_null<std::shared_ptr<T>>`. -/
structure non_null_shared where
  ptr_ : SharedPtr
  deriving DecidableEq

namespace non_null_shared

/-- Checked constructor, as for the raw case: asserts `ptr_ != nullptr`. -/
def mk? (p : SharedPtr) : Option non_null_shared :=
  if p.isNull then none else some ⟨p⟩

/-- `get()`: `ptr_.get()` — the stored pointer of the shared_ptr. -/
def get (w : non_null_shared) : Addr := w.ptr_.ptr

/-- Move constructor (enabled: shared_ptr satisfies `copyable_pointer`):
`ptr_( std::move( other.ptr_ ) )` — a genuine shared_ptr move.
Returns `(constructed, residual source)`. -/
def moveCtor (other : non_null_shared) : non_null_shared × non_null_shared :=
  let m := SharedPtr.moveFrom other.ptr_
  (⟨m.1⟩, ⟨m.2⟩)

/-- Move assignment: `ptr_ = std::move( other.ptr_ )`.
Returns `(assigned-to value, residual source)`. -/
def moveAssign (_dst src : non_null_shared) : non_null_shared × non_null_shared :=
  let m := SharedPtr.moveFrom src.ptr_
  (⟨m.1⟩, ⟨m.2⟩)

/-- Member `swap`. -/
def swap (a b : non_null_shared) : non_null_shared × non_null_shared :=
  (⟨b.ptr_⟩, ⟨a.ptr_⟩)

/-- `owner_before( const non_null<std::shared_ptr<Y>>& )`:
`return ptr_.owner_before( other.underlying() );`. -/
def owner_before (a b : non_null_shared) : Bool :=
  SharedPtr.ownerBefore a.ptr_ b.ptr_

/-- `explicit operator bool()`: `return true;`. -/
def toBool (_ : non_null_shared) : Bool := true

/-- `operator==` between shared wrappers: `lhs.get() == rhs.get()`. -/
def eq (lhs rhs : non_null_shared) : Bool := lhs.get == rhs.get

end non_null_shared

/-! ## `non_null<std::unique_ptr<T>>` (Unique category) -/

/-- `nova::non_null<std::unique_ptr<T>>`.  Move construction/assignment are
deleted (unique_ptr is not a `copyable_pointer`); `take` is the only exit. -/
structure non_null_unique where
  ptr_ : UniquePtr
  deriving DecidableEq

namespace non_null_unique

/-- Checked constructor, asserts `ptr_ != nullptr`. -/
def mk? (p : UniquePtr) : Option non_null_unique :=
  if p.isNull then none else some ⟨p⟩

/-- `get()`: `ptr_.get()`. -/
def get (w : non_null_unique) : Addr := w.ptr_.ptr

/-- `friend T take( non_null&& nn )`: `return std::move( nn.ptr_ );` —
the wrapper is consumed, the unique_ptr is returned by value. -/
def take (nn : non_null_unique) : UniquePtr := nn.ptr_

/-- `explicit operator bool()`: `return true;`. -/
def toBool (_ : non_null_unique) : Bool := true

end non_null_unique

/-- `make_non_null_unique<T>( args... )`:
`non_null( std::make_unique<T>( args... ) )` — allocates a fresh cell
holding `T(args)` (modelled as the value `v`) and wraps the resulting
unique_ptr through the checked constructor. -/
def make_non_null_unique (h : Heap) (v : Nat) : Heap × Option non_null_unique :=
  let m := h.alloc v
  (m.1, non_null_unique.mk? ⟨m.2⟩)

/-! ## `non_null_function<R(Args...)>` -/

/-- `nova::non_null_function<R(Args...)>`: wraps a `std::function` member
`fn_`.  `std::function` is modelled as `Option (α → β)`, `none` being the
empty state. -/
structure non_null_function (α β : Type) where
  fn_ : Option (α → β)

namespace non_null_function

/-- Checked constructor: initialises `fn_` from the callable, then
`detail::assume_not_empty( fn_ )` asserts `bool(fn_)`.  Assertion failure
(empty input) is modelled as `none`. -/
def mk? {α β : Type} (f : Option (α → β)) : Option (non_null_function α β) :=
  if f.isSome then some ⟨f⟩ else none

/-- `operator()( CallArgs&&... )`: `assume_not_empty( fn_ ); return
fn_( std::forward<CallArgs>( args )... );`.  Calling an empty
`std::function` throws; modelled as `none`.  For a wrapper honouring the
invariant this path is unreachable. -/
def call {α β : Type} (w : non_null_function α β) (a : α) : Option β :=
  w.fn_.map (fun g => g a)

/-- Move constructor: `fn_ { function_type { other.fn_ } }` — constructs the
new `std::function` by COPY from the lvalue `other.fn_`; the source is not
modified.  Returns `(constructed, residual source)`. -/
def moveCtor {α β : Type} (other : non_null_function α β) :
    non_null_function α β × non_null_function α β :=
  (⟨other.fn_⟩, other)

/-- Move assignment: `fn_ = function_type { other.fn_ };` — again a copy of
the lvalue `other.fn_`; the source is not modified.
Returns `(assigned-to value, residual source)`. -/
def moveAssign {α β : Type} (_dst src : non_null_function α β) :
    non_null_function α β × non_null_function α β :=
  (⟨src.fn_⟩, src)

/-- `explicit operator bool()`: `return true;`. -/
def toBool {α β : Type} (_ : non_null_function α β) : Bool := true

end non_null_function

/-! ## `non_null_move_only_function<R(Args...)>` (C++23) -/

/-- `nova::non_null_move_only_function<R(Args...)>`: wraps a
`std::move_only_function` member `fn_`; copy and implicit move are deleted. -/
structure non_null_move_only_function (α β : Type) where
  fn_ : Option (α → β)

namespace non_null_move_only_function

/-- Checked constructor with `detail::assume_not_empty( fn_ )`. -/
def mk? {α β : Type} (f : Option (α → β)) :
    Option (non_null_move_only_function α β) :=
  if f.isSome then some ⟨f⟩ else none

/-- `explicit operator bool()`: `return true;`. -/
def toBool {α β : Type} (_ : non_null_move_only_function α β) : Bool := true

end non_null_move_only_function

/-- The doubling callable `x -> 2x` from the spec's scenario. -/
def doubling : Nat → Nat := fun x => 2 * x

/-! ## Theorems -/

/-- C1: the claim says move-constructing or move-assigning from a Raw or
Shared `non_null` leaves the source holding its original non-null pointee.
The code's move operations do `std::move( other.ptr_ )`; for the Shared
category this is a genuine shared_ptr move, which leaves the source EMPTY.
Evaluated at the failing input — a `non_null<shared_ptr>` holding the
shared_ptr `⟨addr 1, control block 1⟩` (e.g. `make_non_null_shared<int>(42)`):
after move construction the residual source wrapper's shared_ptr is null,
not the original value; likewise after move assignment.  (The repository's
own README documents "Move emulated by copy" for `non_null<shared_ptr<T>>`,
which the code contradicts.) -/
theorem C1_shared_move_empties_source :
    ((non_null_shared.moveCtor ⟨⟨1, 1⟩⟩).2.ptr_.isNull = true ∧
      (non_null_shared.moveCtor ⟨⟨1, 1⟩⟩).2.ptr_ ≠ ⟨1, 1⟩) ∧
    ((non_null_shared.moveAssign ⟨⟨2, 2⟩⟩ ⟨⟨1, 1⟩⟩).2.ptr_.isNull = true ∧
      (non_null_shared.moveAssign ⟨⟨2, 2⟩⟩ ⟨⟨1, 1⟩⟩).2.ptr_ ≠ ⟨1, 1⟩) := by
  decide

/-- C2: `try_make_non_null p` is absent iff `p` is the null sentinel; for
every non-null `p` it is present and the contained wrapper's `get()` is `p`;
every wrapper it ever produces is non-null (none is constructed around null
on the absent path). -/
theorem C2_try_make_non_null_spec (p : Addr) :
    (try_make_non_null p = none ↔ p = 0) ∧
    (p ≠ 0 → ∃ w, try_make_non_null p = some w ∧ w.get = p) ∧
    (∀ w, try_make_non_null p = some w → w.get ≠ 0) := by
  unfold try_make_non_null non_null_raw.mk?
  by_cases hp : p = 0 <;>
    simp [hp, non_null_raw.get]

/-- C3: the checked `non_null` constructor fails (assertion failure in
checked builds) iff the supplied value equals the null sentinel; for every
non-null input it succeeds and the wrapper holds exactly that value — for
the Raw, Shared and Unique categories alike. -/
theorem C3_checked_construction (p : Addr) (s : SharedPtr) (u : UniquePtr) :
    ((non_null_raw.mk? p = none ↔ p = 0) ∧
      (p ≠ 0 → non_null_raw.mk? p = some ⟨p⟩)) ∧
    ((non_null_shared.mk? s = none ↔ s.isNull = true) ∧
      (s.isNull = false → non_null_shared.mk? s = some ⟨s⟩)) ∧
    ((non_null_unique.mk? u = none ↔ u.isNull = true) ∧
      (u.isNull = false → non_null_unique.mk? u = some ⟨u⟩)) := by
  unfold non_null_raw.mk? non_null_shared.mk? non_null_unique.mk?
  refine ⟨⟨?_, ?_⟩, ⟨?_, ?_⟩, ⟨?_, ?_⟩⟩ <;>
    by_cases hp : p = 0 <;> simp [hp]

/-- C4: comparing any `non_null` wrapper against the null sentinel
(`operator==` at `U = std::nullptr_t`) yields `false` unconditionally, and
the result does not depend on the stored pointer (the function is constant:
the `if constexpr` selects `return false;` at compile time). -/
theorem C4_null_comparison :
    (∀ w : non_null_raw, w.eqNullptr = false) ∧
    (∀ w w' : non_null_raw, w.eqNullptr = w'.eqNullptr) :=
  ⟨fun _ => rfl, fun _ _ => rfl⟩

/-- C5: round-trip through `take` — `make_non_null_unique` on any heap
succeeds, `take` of the result is a unique_ptr whose pointee reads back as
the constructed value `v` (equivalent to constructing `T(args)` directly),
and re-wrapping that extracted unique_ptr through the checked constructor
succeeds and dereferences to the same value. -/
theorem C5_take_roundtrip (h : Heap) (v : Nat) :
    ∃ nn : non_null_unique,
      (make_non_null_unique h v).2 = some nn ∧
      (make_non_null_unique h v).1.read (non_null_unique.take nn).ptr = some v ∧
      ∃ nn2 : non_null_unique,
        non_null_unique.mk? (non_null_unique.take nn) = some nn2 ∧
        (make_non_null_unique h v).1.read nn2.get = some v := by
  refine ⟨⟨⟨h.cells.length + 1⟩⟩, ?_, ?_, ⟨⟨h.cells.length + 1⟩⟩, ?_, ?_⟩ <;>
    simp [make_non_null_unique, Heap.alloc, Heap.read, non_null_unique.mk?,
      non_null_unique.take, non_null_unique.get, UniquePtr.isNull,
      List.getElem?_concat_length]

/-- C6: after `swap(a, b)` (member swap; the free function forwards to it),
the first wrapper holds the second's prior pointer and vice versa, and both
results are non-null whenever both inputs were — for the Raw and Shared
categories. -/
theorem C6_swap_exchanges (a b : non_null_raw) (c d : non_null_shared)
    (ha : a.ptr_ ≠ 0) (hb : b.ptr_ ≠ 0)
    (hc : c.ptr_.isNull = false) (hd : d.ptr_.isNull = false) :
    ((non_null_raw.swap a b).1.ptr_ = b.ptr_ ∧
      (non_null_raw.swap a b).2.ptr_ = a.ptr_ ∧
      (non_null_raw.swap a b).1.ptr_ ≠ 0 ∧
      (non_null_raw.swap a b).2.ptr_ ≠ 0 ∧
      swap_free a b = non_null_raw.swap a b) ∧
    ((non_null_shared.swap c d).1.ptr_ = d.ptr_ ∧
      (non_null_shared.swap c d).2.ptr_ = c.ptr_ ∧
      (non_null_shared.swap c d).1.ptr_.isNull = false ∧
      (non_null_shared.swap c d).2.ptr_.isNull = false) :=
  ⟨⟨rfl, rfl, hb, ha, rfl⟩, ⟨rfl, rfl, hd, hc⟩⟩

/-- C6 witness: the swap theorem at the concrete wrappers `⟨1⟩, ⟨2⟩` (raw)
and `⟨⟨3, 1⟩⟩, ⟨⟨4, 2⟩⟩` (shared). -/
theorem C6_swap_witness :
    ((non_null_raw.swap ⟨1⟩ ⟨2⟩).1.ptr_ = 2 ∧
      (non_null_raw.swap ⟨1⟩ ⟨2⟩).2.ptr_ = 1 ∧
      (non_null_raw.swap ⟨1⟩ ⟨2⟩).1.ptr_ ≠ 0 ∧
      (non_null_raw.swap ⟨1⟩ ⟨2⟩).2.ptr_ ≠ 0 ∧
      swap_free ⟨1⟩ ⟨2⟩ = non_null_raw.swap ⟨1⟩ ⟨2⟩) ∧
    ((non_null_shared.swap ⟨⟨3, 1⟩⟩ ⟨⟨4, 2⟩⟩).1.ptr_ = ⟨4, 2⟩ ∧
      (non_null_shared.swap ⟨⟨3, 1⟩⟩ ⟨⟨4, 2⟩⟩).2.ptr_ = ⟨3, 1⟩ ∧
      (non_null_shared.swap ⟨⟨3, 1⟩⟩ ⟨⟨4, 2⟩⟩).1.ptr_.isNull = false ∧
      (non_null_shared.swap ⟨⟨3, 1⟩⟩ ⟨⟨4, 2⟩⟩).2.ptr_.isNull = false) :=
  C6_swap_exchanges ⟨1⟩ ⟨2⟩ ⟨⟨3, 1⟩⟩ ⟨⟨4, 2⟩⟩
    (by decide) (by decide) (by decide) (by decide)

/-- C7: invoking a `non_null_function` constructed from a callable `g`
forwards the argument to `g` and returns `g`'s result — the invocation
never takes the empty-callable (exception) path. -/
theorem C7_invocation_forwards {α β : Type} (g : α → β)
    (w : non_null_function α β)
    (hw : non_null_function.mk? (some g) = some w) (a : α) :
    w.call a = some (g a) := by
  simp [non_null_function.mk?] at hw
  subst hw
  rfl

/-- C7 witness: the wrapper over the doubling callable, invoked at 21,
returns 42. -/
theorem C7_invocation_witness :
    non_null_function.call ⟨some doubling⟩ 21 = some 42 :=
  C7_invocation_forwards doubling ⟨some doubling⟩ rfl 21

/-- C8: move construction and move assignment of `non_null_function` are
implemented as copies — the residual source is the unchanged original, the
destination receives an equal callable, the source is still non-empty, and
invoking the source after the "move" behaves exactly as before. -/
theorem C8_function_move_is_copy {α β : Type} (s d : non_null_function α β)
    (hs : s.fn_.isSome = true) :
    (non_null_function.moveCtor s).2 = s ∧
    (non_null_function.moveAssign d s).2 = s ∧
    (non_null_function.moveCtor s).1.fn_ = s.fn_ ∧
    (non_null_function.moveAssign d s).1.fn_ = s.fn_ ∧
    (non_null_function.moveCtor s).2.fn_.isSome = true ∧
    (∀ a, (non_null_function.moveCtor s).2.call a = s.call a) :=
  ⟨rfl, rfl, rfl, rfl, hs, fun _ => rfl⟩

/-- C8 witness: move of the wrapper holding `Nat.succ` (destination held
`doubling`) leaves the source intact and still non-empty. -/
theorem C8_function_move_witness :
    (non_null_function.moveCtor ⟨some Nat.succ⟩).2 =
        (⟨some Nat.succ⟩ : non_null_function Nat Nat) ∧
    (non_null_function.moveAssign ⟨some doubling⟩ ⟨some Nat.succ⟩).2 =
        (⟨some Nat.succ⟩ : non_null_function Nat Nat) ∧
    (non_null_function.moveCtor ⟨some Nat.succ⟩).1.fn_ =
        (⟨some Nat.succ⟩ : non_null_function Nat Nat).fn_ ∧
    (non_null_function.moveAssign ⟨some doubling⟩ ⟨some Nat.succ⟩).1.fn_ =
        (⟨some Nat.succ⟩ : non_null_function Nat Nat).fn_ ∧
    (non_null_function.moveCtor ⟨some Nat.succ⟩).2.fn_.isSome = true ∧
    (∀ a, (non_null_function.moveCtor ⟨some Nat.succ⟩).2.call a =
        (⟨some Nat.succ⟩ : non_null_function Nat Nat).call a) :=
  C8_function_move_is_copy ⟨some Nat.succ⟩ ⟨some doubling⟩ rfl

/-- C9: two handles over the same pointee compare equal (`operator==`, Raw
and Shared); for the Shared category, two handles over the same allocation
(same control block) have `owner_before` false in both directions; two
handles over distinct pointees satisfy exactly one direction of the strict
ordering induced by `operator<=>`. -/
theorem C9_ordering_consistency (a b : non_null_raw) (c d : non_null_shared) :
    (a.get = b.get → non_null_raw.eq a b = true) ∧
    (c.get = d.get → non_null_shared.eq c d = true) ∧
    (c.ptr_.owner = d.ptr_.owner →
      non_null_shared.owner_before c d = false ∧
      non_null_shared.owner_before d c = false) ∧
    (a.get ≠ b.get →
      (non_null_raw.spaceship a b = Ordering.lt ∨
        non_null_raw.spaceship b a = Ordering.lt) ∧
      ¬(non_null_raw.spaceship a b = Ordering.lt ∧
        non_null_raw.spaceship b a = Ordering.lt)) := by
  refine ⟨?_, ?_, ?_, ?_⟩
  · intro hab
    simp [non_null_raw.eq, hab]
  · intro hcd
    simp [non_null_shared.eq, hcd]
  · intro hcd
    simp [non_null_shared.owner_before, SharedPtr.ownerBefore, hcd]
  · intro hab
    constructor
    · rcases Nat.lt_or_ge a.get b.get with hlt | hge
      · exact Or.inl (by simp [non_null_raw.spaceship, Nat.compare_eq_lt, hlt])
      · have hlt : b.get < a.get := Nat.lt_of_le_of_ne hge (Ne.symm hab)
        exact Or.inr (by simp [non_null_raw.spaceship, Nat.compare_eq_lt, hlt])
    · rintro ⟨h1, h2⟩
      rw [non_null_raw.spaceship, Nat.compare_eq_lt] at h1 h2
      exact Nat.lt_asymm h1 h2

/-- C10: explicit conversion to bool of every wrapper — `non_null` (all
three categories), `non_null_function` and `non_null_move_only_function` —
returns `true` unconditionally, and the result does not depend on the
stored value (the function is constant). -/
theorem C10_operator_bool_constant_true :
    ((∀ w : non_null_raw, w.toBool = true) ∧
      (∀ w : non_null_shared, w.toBool = true) ∧
      (∀ w : non_null_unique, w.toBool = true) ∧
      (∀ (α β : Type) (w : non_null_function α β), w.toBool = true) ∧
      (∀ (α β : Type) (w : non_null_move_only_function α β), w.toBool = true)) ∧
    ((∀ w w' : non_null_raw, w.toBool = w'.toBool) ∧
      (∀ (α β : Type) (w w' : non_null_function α β), w.toBool = w'.toBool) ∧
      (∀ (α β : Type) (w w' : non_null_move_only_function α β),
        w.toBool = w'.toBool)) :=
  ⟨⟨fun _ => rfl, fun _ => rfl, fun _ => rfl, fun _ _ _ => rfl,
      fun _ _ _ => rfl⟩,
    ⟨fun _ _ => rfl, fun _ _ _ _ => rfl, fun _ _ _ _ => rfl⟩⟩

end Nova
